import Mathlib

/-!
A shallow embedding of CPython's pure-Python ABC machinery
(`Lib/_py_abc.py`): the virtual-subclass registry, the positive and
negative caches, the global invalidation counter, and the recursive
subclass/instance checks, together with proofs about the specified
properties.

Types are identified by natural-number handles.  The immutable
surroundings of the engine (which handles denote classes, which classes
use the `ABCMeta` metaclass, each class's method-resolution order, its
direct subclasses, and its `__subclasshook__`) are collected in `Env`.
The mutable engine state (`_abc_registry`, `_abc_cache`,
`_abc_negative_cache`, `_abc_negative_cache_version` of every class plus
the global `_abc_invalidation_counter`) is collected in `ABCState`.
Weak-reference reclamation is not modelled: every handle stays alive.
Recursion is made total with an explicit fuel argument; exhausting the
fuel is reported as the artificial error `PyErr.noFuel`, which no
theorem below treats as an answer.  Python exceptions do not roll back
mutations already performed, so every operation returns the state it
reached even when it returns an error.
-/

/-- Result of a `__subclasshook__` call: `True`, `False`, or
`NotImplemented` (line 125 of `_py_abc.py`). -/
inductive HookRes where
  | yes
  | no
  | undecided
deriving DecidableEq

/-- Errors surfaced by the engine: `TypeError` (argument not a class),
the `RuntimeError` raised for inheritance cycles, and fuel exhaustion (a
modelling artefact standing for unbounded recursion). -/
inductive PyErr where
  | notAType
  | cycleRejected
  | noFuel
deriving DecidableEq

/-- The immutable surroundings of the relationship engine. -/
structure Env where
  /-- `isinstance(x, type)`: which handles denote classes. -/
  isType : Nat → Bool
  /-- which classes have `ABCMeta` as metaclass (so that `issubclass`
  dispatches to `ABCMeta.__subclasscheck__` on them). -/
  isABC : Nat → Bool
  /-- `c.__mro__` (the normal, non-virtual ancestry of `c`, containing
  `c` itself for every real class). -/
  mro : Nat → List Nat
  /-- `c.__subclasses__()` (direct normal subclasses of `c`). -/
  subclasses : Nat → List Nat
  /-- `g.__subclasshook__(c)`; classes that do not override the hook
  answer `HookRes.undecided` (`NotImplemented`). -/
  hook : Nat → Nat → HookRes

/-- A Python object as seen by `__instancecheck__`: the handle stored in
its `__class__` attribute and the handle returned by `type(...)`.  For
ordinary objects the two coincide; proxy-like objects report a
`__class__` different from their allocation type. -/
structure PyObj where
  cls : Nat
  ty : Nat
deriving DecidableEq

/-- The mutable state of the engine. -/
structure ABCState where
  /-- `c._abc_registry`: the declared virtual subclasses of `c`. -/
  registry : Nat → List Nat
  /-- `c._abc_cache`: the positive cache of `c`. -/
  cache : Nat → List Nat
  /-- `c._abc_negative_cache`: the negative cache of `c`. -/
  negCache : Nat → List Nat
  /-- `c._abc_negative_cache_version`: the epoch stamped on `c`'s
  negative cache. -/
  negVersion : Nat → Nat
  /-- `ABCMeta._abc_invalidation_counter`: the global epoch. -/
  counter : Nat

/-- `WeakSet.add`: set-like insertion into a membership list. -/
def wsAdd (l : List Nat) (t : Nat) : List Nat :=
  if t ∈ l then l else t :: l

/-- Point update of a per-class table. -/
def setAt (f : Nat → List Nat) (g : Nat) (l : List Nat) : Nat → List Nat :=
  fun x => if x = g then l else f x

/-- `self._abc_cache.add(sub)`. -/
def ABCState.addCache (s : ABCState) (g t : Nat) : ABCState :=
  { s with cache := setAt s.cache g (wsAdd (s.cache g) t) }

/-- `self._abc_negative_cache.add(sub)`. -/
def ABCState.addNegCache (s : ABCState) (g t : Nat) : ABCState :=
  { s with negCache := setAt s.negCache g (wsAdd (s.negCache g) t) }

/-- Lines 118-121: replace `g`'s negative cache by a fresh empty set and
restamp it with the current global counter. -/
def ABCState.resetNegCache (s : ABCState) (g : Nat) : ABCState :=
  { s with
    negCache := setAt s.negCache g [],
    negVersion := fun x => if x = g then s.counter else s.negVersion x }

/-- `abc.get_cache_token()` (lines 4-11). -/
def get_cache_token (s : ABCState) : Nat :=
  s.counter

/-- The engine part of `ABCMeta.__new__` (lines 47-51): initialize an
empty registry and caches for a new class `g` and stamp its negative
cache with the current counter.  The computation of
`__abstractmethods__` belongs to the excluded class-construction
collaborator and is not modelled. -/
def construct (s : ABCState) (g : Nat) : ABCState :=
  { s with
    registry := setAt s.registry g [],
    cache := setAt s.cache g [],
    negCache := setAt s.negCache g [],
    negVersion := fun x => if x = g then s.counter else s.negVersion x }

/-- Generic `issubclass(a, b)` given a checker for ABCs: if `b` is an
ABC the call dispatches to `b.__subclasscheck__(a)`; otherwise it is the
plain structural check `b ∈ a.__mro__` (raising `TypeError` on
non-class arguments). -/
def issubWith (env : Env)
    (check : ABCState → Nat → Nat → Except PyErr Bool × ABCState)
    (s : ABCState) (a b : Nat) : Except PyErr Bool × ABCState :=
  if env.isABC b then check s b a
  else if env.isType a = true ∧ env.isType b = true then
    (.ok (decide (b ∈ env.mro a)), s)
  else (.error .notAType, s)

/-- `any(issub(s, r) for r in l)`: run an effectful test over a list,
threading the state and stopping at the first `True` (the shape of the
two `for` loops at lines 137-146). -/
def anyIssubWith (f : ABCState → Nat → Except PyErr Bool × ABCState) :
    List Nat → ABCState → Except PyErr Bool × ABCState
  | [], s => (.ok false, s)
  | r :: rs, s =>
    match f s r with
    | (.error e, s1) => (.error e, s1)
    | (.ok true, s1) => (.ok true, s1)
    | (.ok false, s1) => anyIssubWith f rs s1

/-- Lines 124-149 of `__subclasscheck__`, after the cache handling:
consult the subclass hook, the normal ancestry, the registry (recursive)
and the direct subclasses (recursive), caching the outcome. -/
def afterNeg (env : Env)
    (issub : ABCState → Nat → Nat → Except PyErr Bool × ABCState)
    (s : ABCState) (self sub : Nat) : Except PyErr Bool × ABCState :=
  match env.hook self sub with
  | .yes => (.ok true, s.addCache self sub)
  | .no => (.ok false, s.addNegCache self sub)
  | .undecided =>
    if self ∈ env.mro sub then (.ok true, s.addCache self sub)
    else
      match anyIssubWith (fun s1 r => issub s1 sub r) (s.registry self) s with
      | (.error e, s2) => (.error e, s2)
      | (.ok true, s2) => (.ok true, s2.addCache self sub)
      | (.ok false, s2) =>
        match anyIssubWith (fun s1 r => issub s1 sub r) (env.subclasses self) s2 with
        | (.error e, s3) => (.error e, s3)
        | (.ok true, s3) => (.ok true, s3.addCache self sub)
        | (.ok false, s3) => (.ok false, s3.addNegCache self sub)

/-- One step of `ABCMeta.__subclasscheck__` (lines 110-149), with the
recursive `issubclass` calls abstracted into `issub`: the `TypeError`
guard, the positive-cache fast path, the lazy invalidation or
consultation of the negative cache, then `afterNeg`. -/
def subclasscheckStep (env : Env)
    (issub : ABCState → Nat → Nat → Except PyErr Bool × ABCState)
    (s : ABCState) (self sub : Nat) : Except PyErr Bool × ABCState :=
  if env.isType sub = true then
    if sub ∈ s.cache self then (.ok true, s)
    else if s.negVersion self < s.counter then
      afterNeg env issub (s.resetNegCache self) self sub
    else if sub ∈ s.negCache self then (.ok false, s)
    else afterNeg env issub s self sub
  else (.error .notAType, s)

/-- `ABCMeta.__subclasscheck__(self, sub)` with fuel-bounded recursion:
the inner `issubclass` calls re-dispatch through `issubWith` with one
unit of fuel less. -/
def subclasscheck (env : Env) : Nat → ABCState → Nat → Nat → Except PyErr Bool × ABCState
  | 0, s, _, _ => (.error .noFuel, s)
  | fuel + 1, s, self, sub =>
    subclasscheckStep env
      (fun s1 a b => issubWith env (fun s2 x y => subclasscheck env fuel s2 x y) s1 a b)
      s self sub

/-- `issubclass(a, b)` at a given fuel level. -/
def issubclass (env : Env) (fuel : Nat) (s : ABCState) (a b : Nat) :
    Except PyErr Bool × ABCState :=
  issubWith env (fun s2 x y => subclasscheck env fuel s2 x y) s a b

/-- `ABCMeta.register(self, sub)` (lines 54-70): reject non-classes,
return `sub` unchanged when it already satisfies `self`, raise
`RuntimeError` when registering would create a cycle, and otherwise add
`sub` to the registry and bump the global counter. -/
def register (env : Env) (fuel : Nat) (s : ABCState) (self sub : Nat) :
    Except PyErr Nat × ABCState :=
  if env.isType sub = true then
    match issubclass env fuel s sub self with
    | (.error e, s1) => (.error e, s1)
    | (.ok true, s1) => (.ok sub, s1)
    | (.ok false, s1) =>
      match issubclass env fuel s1 self sub with
      | (.error e, s2) => (.error e, s2)
      | (.ok true, s2) => (.error .cycleRejected, s2)
      | (.ok false, s2) =>
        (.ok sub,
          { s2 with
            registry := setAt s2.registry self (wsAdd (s2.registry self) sub),
            counter := s2.counter + 1 })
  else (.error .notAType, s)

/-- `ABCMeta.__instancecheck__(self, v)` (lines 92-108): the inlined
cache checks on `v.__class__`, the negative fast path when
`type(v) is v.__class__`, and the fallback subclass checks. -/
def instancecheck (env : Env) (fuel : Nat) (s : ABCState) (self : Nat) (v : PyObj) :
    Except PyErr Bool × ABCState :=
  if v.cls ∈ s.cache self then (.ok true, s)
  else if v.ty = v.cls then
    if s.negVersion self = s.counter ∧ v.cls ∈ s.negCache self then (.ok false, s)
    else subclasscheck env fuel s self v.cls
  else
    match subclasscheck env fuel s self v.cls with
    | (.ok false, s1) => subclasscheck env fuel s1 self v.ty
    | r => r

/-- An engine operation, for stating frame and stability properties
over arbitrary later activity. -/
inductive Op where
  | decl (self sub : Nat)
  | query (self sub : Nat)
  | inst (self : Nat) (v : PyObj)

/-- Run one operation for its state effect. -/
def runOp (env : Env) (fuel : Nat) (s : ABCState) : Op → ABCState
  | .decl a b => (register env fuel s a b).2
  | .query a b => (subclasscheck env fuel s a b).2
  | .inst a v => (instancecheck env fuel s a v).2

/-- Run a sequence of operations for their state effects. -/
def runOps (env : Env) (fuel : Nat) : ABCState → List Op → ABCState
  | s, [] => s
  | s, op :: ops => runOps env fuel (runOp env fuel s op) ops

/-- The spec's name for the object's runtime type: the class the object
reports through its `__class__` attribute. -/
def runtimeTypeOf (v : PyObj) : Nat :=
  v.cls

/-- The spec's name for the object's declared static type: the type the
object was allocated with, `type(v)`. -/
def declaredTypeOf (v : PyObj) : Nat :=
  v.ty

/-- Spec vocabulary: `G.positiveCache`. -/
def ABCState.positiveCache (s : ABCState) (g : Nat) : List Nat :=
  s.cache g

/-- Spec vocabulary: `G.negativeCache`. -/
def ABCState.negativeCache (s : ABCState) (g : Nat) : List Nat :=
  s.negCache g

/-- Spec vocabulary: `G.negativeCacheEpoch`. -/
def ABCState.negativeCacheEpoch (s : ABCState) (g : Nat) : Nat :=
  s.negVersion g

/-- Spec vocabulary: `globalEpoch`. -/
def globalEpoch (s : ABCState) : Nat :=
  s.counter

/-- `satisfiesInstance` transcribed from the spec's three-step
description (spec section 4.2): 1. answer true when the runtime type is
positively cached; 2. answer false when the runtime and declared types
agree, the negative cache is current, and the runtime type is
negatively cached; 3. otherwise delegate to `satisfiesType` on the
runtime type and, when the declared type differs, also on the declared
type, answering true when either succeeds. -/
def satisfiesInstanceSpec (env : Env) (fuel : Nat) (s : ABCState) (G : Nat) (v : PyObj) :
    Except PyErr Bool × ABCState :=
  let T := runtimeTypeOf v
  let D := declaredTypeOf v
  if T ∈ s.positiveCache G then (.ok true, s)
  else if T = D ∧ s.negativeCacheEpoch G = globalEpoch s ∧ T ∈ s.negativeCache G then
    (.ok false, s)
  else if T = D then subclasscheck env fuel s G T
  else
    match subclasscheck env fuel s G T with
    | (.ok false, s1) => subclasscheck env fuel s1 G D
    | r => r

/-! ### Basic facts about the state helpers -/

theorem wsAdd_mem_self (l : List Nat) (t : Nat) : t ∈ wsAdd l t := by
  unfold wsAdd
  split
  · assumption
  · exact List.mem_cons_self t l

theorem wsAdd_mem_of (l : List Nat) (t x : Nat) (h : x ∈ l) : x ∈ wsAdd l t := by
  unfold wsAdd
  split
  · exact h
  · exact List.mem_cons_of_mem t h

theorem setAt_self (f : Nat → List Nat) (g : Nat) (l : List Nat) :
    setAt f g l g = l := by
  simp [setAt]

theorem setAt_other (f : Nat → List Nat) (g : Nat) (l : List Nat) (x : Nat)
    (h : x ≠ g) : setAt f g l x = f x := by
  simp [setAt, h]

@[simp] theorem addCache_registry (s : ABCState) (g t : Nat) :
    (s.addCache g t).registry = s.registry := rfl

@[simp] theorem addCache_negCache (s : ABCState) (g t : Nat) :
    (s.addCache g t).negCache = s.negCache := rfl

@[simp] theorem addCache_negVersion (s : ABCState) (g t : Nat) :
    (s.addCache g t).negVersion = s.negVersion := rfl

@[simp] theorem addCache_counter (s : ABCState) (g t : Nat) :
    (s.addCache g t).counter = s.counter := rfl

theorem addCache_cache_self (s : ABCState) (g t : Nat) :
    (s.addCache g t).cache g = wsAdd (s.cache g) t := by
  simp [ABCState.addCache, setAt]

theorem addCache_cache_other (s : ABCState) (g t x : Nat) (h : x ≠ g) :
    (s.addCache g t).cache x = s.cache x := by
  simp [ABCState.addCache, setAt, h]

@[simp] theorem addNegCache_registry (s : ABCState) (g t : Nat) :
    (s.addNegCache g t).registry = s.registry := rfl

@[simp] theorem addNegCache_cache (s : ABCState) (g t : Nat) :
    (s.addNegCache g t).cache = s.cache := rfl

@[simp] theorem addNegCache_negVersion (s : ABCState) (g t : Nat) :
    (s.addNegCache g t).negVersion = s.negVersion := rfl

@[simp] theorem addNegCache_counter (s : ABCState) (g t : Nat) :
    (s.addNegCache g t).counter = s.counter := rfl

theorem addNegCache_negCache_self (s : ABCState) (g t : Nat) :
    (s.addNegCache g t).negCache g = wsAdd (s.negCache g) t := by
  simp [ABCState.addNegCache, setAt]

theorem addNegCache_negCache_other (s : ABCState) (g t x : Nat) (h : x ≠ g) :
    (s.addNegCache g t).negCache x = s.negCache x := by
  simp [ABCState.addNegCache, setAt, h]

@[simp] theorem resetNegCache_registry (s : ABCState) (g : Nat) :
    (s.resetNegCache g).registry = s.registry := rfl

@[simp] theorem resetNegCache_cache (s : ABCState) (g : Nat) :
    (s.resetNegCache g).cache = s.cache := rfl

@[simp] theorem resetNegCache_counter (s : ABCState) (g : Nat) :
    (s.resetNegCache g).counter = s.counter := rfl

theorem resetNegCache_negCache_self (s : ABCState) (g : Nat) :
    (s.resetNegCache g).negCache g = [] := by
  simp [ABCState.resetNegCache, setAt]

theorem resetNegCache_negCache_other (s : ABCState) (g x : Nat) (h : x ≠ g) :
    (s.resetNegCache g).negCache x = s.negCache x := by
  simp [ABCState.resetNegCache, setAt, h]

theorem resetNegCache_negVersion_self (s : ABCState) (g : Nat) :
    (s.resetNegCache g).negVersion g = s.counter := by
  simp [ABCState.resetNegCache]

theorem resetNegCache_negVersion_other (s : ABCState) (g x : Nat) (h : x ≠ g) :
    (s.resetNegCache g).negVersion x = s.negVersion x := by
  simp [ABCState.resetNegCache, h]

/-- Unfolding equation for `subclasscheck` at positive fuel, with the
inner checker re-expressed through `issubclass`. -/
theorem subclasscheck_succ (env : Env) (fuel : Nat) (s : ABCState) (self sub : Nat) :
    subclasscheck env (fuel + 1) s self sub =
      subclasscheckStep env (fun s1 a b => issubclass env fuel s1 a b) s self sub := rfl

/-! ### Query frame properties

A membership query never touches any registry or the global counter; it
only grows positive caches and replaces negative caches, stamping them
with the (unchanged) current counter. -/

/-- What a query is allowed to do to the state: registries and the
counter are untouched, positive caches only grow, and every negative
cache stamp is either untouched or set to the current counter. -/
def QP (s s1 : ABCState) : Prop :=
  s1.registry = s.registry ∧ s1.counter = s.counter ∧
    (∀ g t, t ∈ s.cache g → t ∈ s1.cache g) ∧
    (∀ g, s1.negVersion g = s.negVersion g ∨ s1.negVersion g = s.counter)

theorem QP.refl (s : ABCState) : QP s s :=
  ⟨rfl, rfl, fun _ _ h => h, fun _ => Or.inl rfl⟩

theorem QP.trans {s s1 s2 : ABCState} (h1 : QP s s1) (h2 : QP s1 s2) : QP s s2 := by
  obtain ⟨r1, c1, m1, v1⟩ := h1
  obtain ⟨r2, c2, m2, v2⟩ := h2
  refine ⟨r2.trans r1, c2.trans c1, fun g t h => m2 g t (m1 g t h), fun g => ?_⟩
  rcases v2 g with h | h
  · rw [h]; exact v1 g
  · rw [h, c1]; exact Or.inr rfl

theorem QP.addCache (s : ABCState) (g t : Nat) : QP s (s.addCache g t) := by
  refine ⟨rfl, rfl, fun g1 t1 h => ?_, fun _ => Or.inl rfl⟩
  by_cases hg : g1 = g
  · subst hg
    rw [addCache_cache_self]
    exact wsAdd_mem_of _ _ _ h
  · rw [addCache_cache_other s g t g1 hg]
    exact h

theorem QP.addNegCache (s : ABCState) (g t : Nat) : QP s (s.addNegCache g t) :=
  ⟨rfl, rfl, fun _ _ h => h, fun _ => Or.inl rfl⟩

theorem QP.resetNegCache (s : ABCState) (g : Nat) : QP s (s.resetNegCache g) := by
  refine ⟨rfl, rfl, fun _ _ h => h, fun g1 => ?_⟩
  by_cases hg : g1 = g
  · subst hg
    rw [resetNegCache_negVersion_self]
    exact Or.inr rfl
  · rw [resetNegCache_negVersion_other s g g1 hg]
    exact Or.inl rfl

theorem qp_anyIssubWith (f : ABCState → Nat → Except PyErr Bool × ABCState)
    (hf : ∀ s r, QP s (f s r).2) :
    ∀ (l : List Nat) (s : ABCState), QP s (anyIssubWith f l s).2 := by
  intro l
  induction l with
  | nil => intro s; exact QP.refl s
  | cons r rs ih =>
    intro s
    show QP s (anyIssubWith f (r :: rs) s).2
    unfold anyIssubWith
    rcases hfr : f s r with ⟨res, s1⟩
    have hq : QP s s1 := by
      have := hf s r
      rw [hfr] at this
      exact this
    rcases res with e | b
    · exact hq
    · rcases b with _ | _
      · exact hq.trans (ih s1)
      · exact hq

theorem qp_afterNeg (env : Env)
    (issub : ABCState → Nat → Nat → Except PyErr Bool × ABCState)
    (hi : ∀ s a b, QP s (issub s a b).2) (s : ABCState) (self sub : Nat) :
    QP s (afterNeg env issub s self sub).2 := by
  have hone : ∀ (s1 : ABCState) (r : Nat), QP s1 (issub s1 sub r).2 :=
    fun s1 r => hi s1 sub r
  have hreg := qp_anyIssubWith _ hone (s.registry self) s
  unfold afterNeg
  split
  · exact QP.addCache s self sub
  · exact QP.addNegCache s self sub
  · split
    · exact QP.addCache s self sub
    · split
      · rename_i e s2 heq
        rw [heq] at hreg
        exact hreg
      · rename_i s2 heq
        rw [heq] at hreg
        exact hreg.trans (QP.addCache s2 self sub)
      · rename_i s2 heq
        rw [heq] at hreg
        have hsub := qp_anyIssubWith _ hone (env.subclasses self) s2
        split
        · rename_i e s3 heq2
          rw [heq2] at hsub
          exact hreg.trans hsub
        · rename_i s3 heq2
          rw [heq2] at hsub
          exact hreg.trans (hsub.trans (QP.addCache s3 self sub))
        · rename_i s3 heq2
          rw [heq2] at hsub
          exact hreg.trans (hsub.trans (QP.addNegCache s3 self sub))

theorem qp_subclasscheckStep (env : Env)
    (issub : ABCState → Nat → Nat → Except PyErr Bool × ABCState)
    (hi : ∀ s a b, QP s (issub s a b).2) (s : ABCState) (self sub : Nat) :
    QP s (subclasscheckStep env issub s self sub).2 := by
  unfold subclasscheckStep
  split
  · split
    · exact QP.refl s
    · split
      · exact (QP.resetNegCache s self).trans
          (qp_afterNeg env issub hi (s.resetNegCache self) self sub)
      · split
        · exact QP.refl s
        · exact qp_afterNeg env issub hi s self sub
  · exact QP.refl s

theorem qp_subclasscheck (env : Env) :
    ∀ (fuel : Nat) (s : ABCState) (self sub : Nat),
      QP s (subclasscheck env fuel s self sub).2 := by
  intro fuel
  induction fuel with
  | zero => intro s self sub; exact QP.refl s
  | succ fuel ih =>
    intro s self sub
    rw [subclasscheck_succ]
    refine qp_subclasscheckStep env _ ?_ s self sub
    intro s1 a b
    unfold issubclass issubWith
    split
    · exact ih s1 b a
    · split
      · exact QP.refl s1
      · exact QP.refl s1

theorem qp_issubclass (env : Env) (fuel : Nat) (s : ABCState) (a b : Nat) :
    QP s (issubclass env fuel s a b).2 := by
  unfold issubclass issubWith
  split
  · exact qp_subclasscheck env fuel s b a
  · split
    · exact QP.refl s
    · exact QP.refl s

theorem qp_instancecheck (env : Env) (fuel : Nat) (s : ABCState) (self : Nat)
    (v : PyObj) : QP s (instancecheck env fuel s self v).2 := by
  unfold instancecheck
  split
  · exact QP.refl s
  · split
    · split
      · exact QP.refl s
      · exact qp_subclasscheck env fuel s self v.cls
    · rcases h1 : subclasscheck env fuel s self v.cls with ⟨res1, s1⟩
      have hq1 : QP s s1 := by
        have := qp_subclasscheck env fuel s self v.cls
        rw [h1] at this
        exact this
      rcases res1 with e | b
      · simpa [h1] using hq1
      · rcases b with _ | _
        · have := qp_subclasscheck env fuel s1 self v.ty
          simpa [h1] using hq1.trans this
        · simpa [h1] using hq1

/-! ### Shape of the answers -/

theorem subclasscheck_zero (env : Env) (s : ABCState) (self sub : Nat) :
    subclasscheck env 0 s self sub = (.error .noFuel, s) := rfl

/-- Positive-cache fast path (lines 114-116): a cached positive answer
is returned immediately, with no state change. -/
theorem subclasscheck_cache_hit (env : Env) (fuel : Nat) (s : ABCState) (self sub : Nat)
    (hT : env.isType sub = true) (hc : sub ∈ s.cache self) :
    subclasscheck env (fuel + 1) s self sub = (.ok true, s) := by
  rw [subclasscheck_succ]
  unfold subclasscheckStep
  rw [if_pos hT, if_pos hc]

theorem afterNeg_true_cached (env : Env)
    (issub : ABCState → Nat → Nat → Except PyErr Bool × ABCState)
    (s s1 : ABCState) (self sub : Nat)
    (h : afterNeg env issub s self sub = (.ok true, s1)) : sub ∈ s1.cache self := by
  unfold afterNeg at h
  split at h
  · injection h with h1 h2
    subst h2
    rw [addCache_cache_self]
    exact wsAdd_mem_self _ _
  · simp at h
  · split at h
    · injection h with h1 h2
      subst h2
      rw [addCache_cache_self]
      exact wsAdd_mem_self _ _
    · split at h
      · simp at h
      · injection h with h1 h2
        subst h2
        rw [addCache_cache_self]
        exact wsAdd_mem_self _ _
      · split at h
        · simp at h
        · injection h with h1 h2
          subst h2
          rw [addCache_cache_self]
          exact wsAdd_mem_self _ _
        · simp at h

/-- Every true answer of `__subclasscheck__` leaves `sub` in the
positive cache of `self`. -/
theorem subclasscheck_true_cached (env : Env) (fuel : Nat) (s s1 : ABCState)
    (self sub : Nat) (h : subclasscheck env fuel s self sub = (.ok true, s1)) :
    sub ∈ s1.cache self := by
  cases fuel with
  | zero => simp [subclasscheck_zero] at h
  | succ fuel =>
    rw [subclasscheck_succ] at h
    unfold subclasscheckStep at h
    split at h
    · split at h
      · rename_i hc
        injection h with h1 h2
        subst h2
        exact hc
      · split at h
        · exact afterNeg_true_cached env _ _ _ self sub h
        · split at h
          · simp at h
          · exact afterNeg_true_cached env _ _ _ self sub h
    · simp at h

/-- A non-error answer of `__subclasscheck__` implies the argument
passed the `isinstance(sub, type)` guard (lines 112-113). -/
theorem subclasscheck_ok_isType (env : Env) (fuel : Nat) (s s1 : ABCState)
    (self sub : Nat) (b : Bool)
    (h : subclasscheck env fuel s self sub = (.ok b, s1)) : env.isType sub = true := by
  cases fuel with
  | zero => simp [subclasscheck_zero] at h
  | succ fuel =>
    rw [subclasscheck_succ] at h
    unfold subclasscheckStep at h
    split at h
    · assumption
    · simp at h

/-! ### Evaluation lemmas for tracing concrete scenarios -/

theorem anyIssubWith_nil (f : ABCState → Nat → Except PyErr Bool × ABCState)
    (s : ABCState) : anyIssubWith f [] s = (.ok false, s) := rfl

theorem issubclass_abc (env : Env) (fuel : Nat) (s : ABCState) (a b : Nat)
    (hb : env.isABC b = true) :
    issubclass env fuel s a b = subclasscheck env fuel s b a := by
  unfold issubclass issubWith
  simp [hb]

theorem issubclass_plain (env : Env) (fuel : Nat) (s : ABCState) (a b : Nat)
    (hb : env.isABC b = false) (ha : env.isType a = true) (hb2 : env.isType b = true) :
    issubclass env fuel s a b = (.ok (decide (b ∈ env.mro a)), s) := by
  unfold issubclass issubWith
  simp [hb, ha, hb2]

/-- A query on a receiver with current negative-cache stamp, empty
registry and no subclasses, whose hook is undecided and which is not an
ancestor of `sub`: the answer is negative and is recorded in the
receiver's negative cache. -/
theorem subclasscheck_fresh_false (env : Env) (fuel : Nat) (s : ABCState) (self sub : Nat)
    (hT : env.isType sub = true) (hc : sub ∉ s.cache self)
    (hv : ¬ s.negVersion self < s.counter) (hn : sub ∉ s.negCache self)
    (hh : env.hook self sub = .undecided) (hm : self ∉ env.mro sub)
    (hr : s.registry self = []) (hs : env.subclasses self = []) :
    subclasscheck env (fuel + 1) s self sub = (.ok false, s.addNegCache self sub) := by
  rw [subclasscheck_succ]
  simp [subclasscheckStep, afterNeg, anyIssubWith, hT, hc, hv, hn, hh, hm, hr, hs]

/-- As `subclasscheck_fresh_false`, with a stale negative cache: the
cache is first discarded and restamped. -/
theorem subclasscheck_fresh_false_stale (env : Env) (fuel : Nat) (s : ABCState)
    (self sub : Nat)
    (hT : env.isType sub = true) (hc : sub ∉ s.cache self)
    (hv : s.negVersion self < s.counter)
    (hh : env.hook self sub = .undecided) (hm : self ∉ env.mro sub)
    (hr : s.registry self = []) (hs : env.subclasses self = []) :
    subclasscheck env (fuel + 1) s self sub =
      (.ok false, (s.resetNegCache self).addNegCache self sub) := by
  rw [subclasscheck_succ]
  simp [subclasscheckStep, afterNeg, anyIssubWith, hT, hc, hv, hh, hm, hr, hs]

/-- Structural hit (line 134): the receiver appears in `sub`'s mro. -/
theorem subclasscheck_mro_true (env : Env) (fuel : Nat) (s : ABCState) (self sub : Nat)
    (hT : env.isType sub = true) (hc : sub ∉ s.cache self)
    (hv : ¬ s.negVersion self < s.counter) (hn : sub ∉ s.negCache self)
    (hh : env.hook self sub = .undecided) (hm : self ∈ env.mro sub) :
    subclasscheck env (fuel + 1) s self sub = (.ok true, s.addCache self sub) := by
  rw [subclasscheck_succ]
  simp [subclasscheckStep, afterNeg, hT, hc, hv, hn, hh, hm]

/-- Structural hit with a stale negative cache. -/
theorem subclasscheck_mro_true_stale (env : Env) (fuel : Nat) (s : ABCState)
    (self sub : Nat)
    (hT : env.isType sub = true) (hc : sub ∉ s.cache self)
    (hv : s.negVersion self < s.counter)
    (hh : env.hook self sub = .undecided) (hm : self ∈ env.mro sub) :
    subclasscheck env (fuel + 1) s self sub =
      (.ok true, (s.resetNegCache self).addCache self sub) := by
  rw [subclasscheck_succ]
  simp [subclasscheckStep, afterNeg, hT, hc, hv, hh, hm]

/-- Hook short-circuit, positive verdict (lines 125-132). -/
theorem subclasscheck_hook_yes (env : Env) (fuel : Nat) (s : ABCState) (self sub : Nat)
    (hT : env.isType sub = true) (hc : sub ∉ s.cache self)
    (hv : ¬ s.negVersion self < s.counter) (hn : sub ∉ s.negCache self)
    (hh : env.hook self sub = .yes) :
    subclasscheck env (fuel + 1) s self sub = (.ok true, s.addCache self sub) := by
  rw [subclasscheck_succ]
  simp [subclasscheckStep, afterNeg, hT, hc, hv, hn, hh]

/-- Hook short-circuit, positive verdict, stale negative cache. -/
theorem subclasscheck_hook_yes_stale (env : Env) (fuel : Nat) (s : ABCState)
    (self sub : Nat)
    (hT : env.isType sub = true) (hc : sub ∉ s.cache self)
    (hv : s.negVersion self < s.counter) (hh : env.hook self sub = .yes) :
    subclasscheck env (fuel + 1) s self sub =
      (.ok true, (s.resetNegCache self).addCache self sub) := by
  rw [subclasscheck_succ]
  simp [subclasscheckStep, afterNeg, hT, hc, hv, hh]

/-- Hook short-circuit, negative verdict (lines 125-132). -/
theorem subclasscheck_hook_no (env : Env) (fuel : Nat) (s : ABCState) (self sub : Nat)
    (hT : env.isType sub = true) (hc : sub ∉ s.cache self)
    (hv : ¬ s.negVersion self < s.counter) (hn : sub ∉ s.negCache self)
    (hh : env.hook self sub = .no) :
    subclasscheck env (fuel + 1) s self sub = (.ok false, s.addNegCache self sub) := by
  rw [subclasscheck_succ]
  simp [subclasscheckStep, afterNeg, hT, hc, hv, hn, hh]

/-- Hook short-circuit, negative verdict, stale negative cache. -/
theorem subclasscheck_hook_no_stale (env : Env) (fuel : Nat) (s : ABCState)
    (self sub : Nat)
    (hT : env.isType sub = true) (hc : sub ∉ s.cache self)
    (hv : s.negVersion self < s.counter) (hh : env.hook self sub = .no) :
    subclasscheck env (fuel + 1) s self sub =
      (.ok false, (s.resetNegCache self).addNegCache self sub) := by
  rw [subclasscheck_succ]
  simp [subclasscheckStep, afterNeg, hT, hc, hv, hh]

/-- Negative-cache fast path (lines 122-123): a currently-stamped
negative entry is returned immediately, with no state change. -/
theorem subclasscheck_neg_hit (env : Env) (fuel : Nat) (s : ABCState) (self sub : Nat)
    (hT : env.isType sub = true) (hc : sub ∉ s.cache self)
    (hv : ¬ s.negVersion self < s.counter) (hn : sub ∈ s.negCache self) :
    subclasscheck env (fuel + 1) s self sub = (.ok false, s) := by
  rw [subclasscheck_succ]
  simp [subclasscheckStep, hT, hc, hv, hn]

/-- Registry hit on the first registry entry, stale negative cache: the
recursive `issubclass` on the head entry answers true, so the query
answers true and caches positively (lines 137-141). -/
theorem subclasscheck_reg_head_true_stale (env : Env) (fuel : Nat) (s s2 : ABCState)
    (self sub r : Nat) (rest : List Nat)
    (hT : env.isType sub = true) (hc : sub ∉ s.cache self)
    (hv : s.negVersion self < s.counter)
    (hh : env.hook self sub = .undecided) (hm : self ∉ env.mro sub)
    (hr : s.registry self = r :: rest)
    (hhead : issubclass env fuel (s.resetNegCache self) sub r = (.ok true, s2)) :
    subclasscheck env (fuel + 1) s self sub = (.ok true, s2.addCache self sub) := by
  rw [subclasscheck_succ]
  simp [subclasscheckStep, afterNeg, anyIssubWith, hT, hc, hv, hh, hm, hr, hhead]

/-! ### Shape of `register`'s outcomes -/

theorem register_not_a_type (env : Env) (fuel : Nat) (s : ABCState) (self sub : Nat)
    (hT : env.isType sub = false) :
    register env fuel s self sub = (.error .notAType, s) := by
  unfold register
  simp [hT]

/-- Line 61-62: when `sub` already satisfies `self`, registration is a
no-op that returns `sub` and the state reached by the membership check. -/
theorem register_noop (env : Env) (fuel : Nat) (s s1 : ABCState) (self sub : Nat)
    (hT : env.isType sub = true)
    (h1 : issubclass env fuel s sub self = (.ok true, s1)) :
    register env fuel s self sub = (.ok sub, s1) := by
  unfold register
  simp [hT, h1]

/-- Lines 65-67: when `self` satisfies `sub`, registration fails with
the cycle error, at the state reached by the two membership checks. -/
theorem register_cycle (env : Env) (fuel : Nat) (s s1 s2 : ABCState) (self sub : Nat)
    (hT : env.isType sub = true)
    (h1 : issubclass env fuel s sub self = (.ok false, s1))
    (h2 : issubclass env fuel s1 self sub = (.ok true, s2)) :
    register env fuel s self sub = (.error .cycleRejected, s2) := by
  unfold register
  simp [hT, h1, h2]

/-- Lines 68-70: the committing case adds `sub` to `self`'s registry and
bumps the global counter. -/
theorem register_commit (env : Env) (fuel : Nat) (s s1 s2 : ABCState) (self sub : Nat)
    (hT : env.isType sub = true)
    (h1 : issubclass env fuel s sub self = (.ok false, s1))
    (h2 : issubclass env fuel s1 self sub = (.ok false, s2)) :
    register env fuel s self sub =
      (.ok sub,
        { s2 with
          registry := setAt s2.registry self (wsAdd (s2.registry self) sub),
          counter := s2.counter + 1 }) := by
  unfold register
  simp [hT, h1, h2]

/-- A successful `register` implies its argument passed the
`isinstance(sub, type)` guard. -/
theorem register_ok_isType (env : Env) (fuel : Nat) (s s1 : ABCState) (self sub x : Nat)
    (h : register env fuel s self sub = (.ok x, s1)) : env.isType sub = true := by
  by_cases hT : env.isType sub = true
  · exact hT
  · rw [register_not_a_type env fuel s self sub (by simpa using hT)] at h
    simp at h

theorem register_err1 (env : Env) (fuel : Nat) (s s1 : ABCState) (self sub : Nat)
    (e : PyErr) (hT : env.isType sub = true)
    (h1 : issubclass env fuel s sub self = (.error e, s1)) :
    register env fuel s self sub = (.error e, s1) := by
  unfold register
  simp [hT, h1]

theorem register_err2 (env : Env) (fuel : Nat) (s s1 s2 : ABCState) (self sub : Nat)
    (e : PyErr) (hT : env.isType sub = true)
    (h1 : issubclass env fuel s sub self = (.ok false, s1))
    (h2 : issubclass env fuel s1 self sub = (.error e, s2)) :
    register env fuel s self sub = (.error e, s2) := by
  unfold register
  simp [hT, h1, h2]

/-! ### Cache monotonicity across arbitrary operations -/

/-- Positive caches only ever grow. -/
def cacheLe (s s1 : ABCState) : Prop :=
  ∀ g t, t ∈ s.cache g → t ∈ s1.cache g

theorem cacheLe_refl (s : ABCState) : cacheLe s s := fun _ _ h => h

theorem cacheLe_trans {s s1 s2 : ABCState} (h1 : cacheLe s s1) (h2 : cacheLe s1 s2) :
    cacheLe s s2 := fun g t h => h2 g t (h1 g t h)

theorem cacheLe_register (env : Env) (fuel : Nat) (s : ABCState) (self sub : Nat) :
    cacheLe s (register env fuel s self sub).2 := by
  have q1 := qp_issubclass env fuel s sub self
  unfold register
  split
  · split
    · rename_i e s1 heq
      rw [heq] at q1
      exact q1.2.2.1
    · rename_i s1 heq
      rw [heq] at q1
      exact q1.2.2.1
    · rename_i s1 heq
      rw [heq] at q1
      have q2 := qp_issubclass env fuel s1 self sub
      split
      · rename_i e s2 heq2
        rw [heq2] at q2
        exact cacheLe_trans q1.2.2.1 q2.2.2.1
      · rename_i s2 heq2
        rw [heq2] at q2
        exact cacheLe_trans q1.2.2.1 q2.2.2.1
      · rename_i s2 heq2
        rw [heq2] at q2
        exact cacheLe_trans q1.2.2.1 q2.2.2.1
  · exact cacheLe_refl s

theorem cacheLe_runOp (env : Env) (fuel : Nat) (s : ABCState) (op : Op) :
    cacheLe s (runOp env fuel s op) := by
  cases op with
  | decl a b => exact cacheLe_register env fuel s a b
  | query a b => exact (qp_subclasscheck env fuel s a b).2.2.1
  | inst a v => exact (qp_instancecheck env fuel s a v).2.2.1

theorem cacheLe_runOps (env : Env) (fuel : Nat) :
    ∀ (ops : List Op) (s : ABCState), cacheLe s (runOps env fuel s ops) := by
  intro ops
  induction ops with
  | nil => intro s; exact cacheLe_refl s
  | cons op ops ih =>
    intro s
    exact cacheLe_trans (cacheLe_runOp env fuel s op) (ih (runOp env fuel s op))

/-! ### The claims -/

/-- C10: membership queries are registry- and epoch-preserving: a
`satisfiesType` (`__subclasscheck__`) or `satisfiesInstance`
(`__instancecheck__`) call leaves the global counter and every group's
registry unchanged; since the state consists only of registries, the
two caches, the negative-cache stamps and the counter, the caches and
stamps are the only state a query may mutate. -/
theorem C10_theorem (env : Env) (fuel : Nat) (s : ABCState) (self sub : Nat)
    (v : PyObj) :
    ((subclasscheck env fuel s self sub).2.registry = s.registry ∧
      (subclasscheck env fuel s self sub).2.counter = s.counter) ∧
    ((instancecheck env fuel s self v).2.registry = s.registry ∧
      (instancecheck env fuel s self v).2.counter = s.counter) := by
  have h1 := qp_subclasscheck env fuel s self sub
  have h2 := qp_instancecheck env fuel s self v
  exact ⟨⟨h1.1, h1.2.1⟩, ⟨h2.1, h2.2.1⟩⟩

/-- C8: `__instancecheck__` follows the spec's three-step algorithm:
positive-cache fast path on the runtime type, negative fast path when
the runtime and declared types agree and the negative cache is current,
otherwise delegation to the subclass check on the runtime type and — if
the declared type differs — also on the declared type, answering true
when either succeeds. -/
theorem C8_theorem (env : Env) (fuel : Nat) (s : ABCState) (G : Nat) (v : PyObj) :
    instancecheck env fuel s G v = satisfiesInstanceSpec env fuel s G v := by
  unfold instancecheck satisfiesInstanceSpec runtimeTypeOf declaredTypeOf
    ABCState.positiveCache ABCState.negativeCache ABCState.negativeCacheEpoch globalEpoch
  by_cases h1 : v.cls ∈ s.cache G
  · simp [h1]
  · by_cases h2 : v.ty = v.cls
    · by_cases h3 : s.negVersion G = s.counter ∧ v.cls ∈ s.negCache G
      · simp [h1, h2, h3]
      · simp [h1, h2, h3]
    · have h2x : ¬ (v.cls = v.ty) := fun h => h2 h.symm
      simp [h1, h2, h2x]

/-- C6: positive answers are stable: once `satisfiesType(G, T)` has
answered true, it answers true again after any sequence of further
declares and queries (with any fuel and at least one unit of fuel for
the repeated query), without further state change: declarations only
add members and positive cache entries are never removed. -/
theorem C6_theorem (env : Env) (fuel fuel1 fuel2 : Nat) (s s1 : ABCState) (G T : Nat)
    (h : subclasscheck env fuel s G T = (.ok true, s1)) (ops : List Op) :
    subclasscheck env (fuel2 + 1) (runOps env fuel1 s1 ops) G T =
      (.ok true, runOps env fuel1 s1 ops) := by
  have hT := subclasscheck_ok_isType env fuel s s1 G T true h
  have hcached := subclasscheck_true_cached env fuel s s1 G T h
  have hmono := cacheLe_runOps env fuel1 ops s1
  exact subclasscheck_cache_hit env fuel2 _ G T hT (hmono G T hcached)

/-- C5: `declare` is idempotent: when `T` already satisfies `G`,
`register(G, T)` returns `T`, leaves every registry and the global
counter exactly as the membership check left them (i.e. unchanged), and
a repeated `register(G, T)` afterwards returns `T` with no state change
at all. -/
theorem C5_theorem (env : Env) (fuel fuel2 : Nat) (s s1 : ABCState) (G T : Nat)
    (hABC : env.isABC G = true)
    (h : subclasscheck env fuel s G T = (.ok true, s1)) :
    register env fuel s G T = (.ok T, s1) ∧
      s1.registry = s.registry ∧ s1.counter = s.counter ∧
      register env (fuel2 + 1) s1 G T = (.ok T, s1) := by
  have hT := subclasscheck_ok_isType env fuel s s1 G T true h
  have hq := qp_subclasscheck env fuel s G T
  rw [h] at hq
  have h1 : issubclass env fuel s T G = (.ok true, s1) := by
    rw [issubclass_abc env fuel s T G hABC]
    exact h
  refine ⟨register_noop env fuel s s1 G T hT h1, hq.1, hq.2.1, ?_⟩
  have hcached := subclasscheck_true_cached env fuel s s1 G T h
  have h2 : issubclass env (fuel2 + 1) s1 T G = (.ok true, s1) := by
    rw [issubclass_abc env (fuel2 + 1) s1 T G hABC]
    exact subclasscheck_cache_hit env fuel2 s1 G T hT hcached
  exact register_noop env (fuel2 + 1) s1 s1 G T hT h2

/-- C2 (amended): each `declare` call moves the global counter by
exactly one when it commits; a successful call that was a no-op
(the argument already satisfied the receiver) and every failing call
leave the counter unchanged.  A successful call is a no-op exactly
when the already-a-subclass check (line 61) answered true, so the two
disjuncts below are mutually exclusive and characterize the counter:
no-op success implies it is unchanged, committing success implies it
rose by one.  The N-call form follows: N successful committing
declares add exactly N. -/
theorem C2_theorem (env : Env) (fuel : Nat) (s : ABCState) (self sub : Nat) :
    (∀ x s1, register env fuel s self sub = (.ok x, s1) →
      ((issubclass env fuel s sub self).1 = .ok true ∧ s1.counter = s.counter) ∨
        ((issubclass env fuel s sub self).1 = .ok false ∧
          s1.counter = s.counter + 1)) ∧
    (∀ e s1, register env fuel s self sub = (.error e, s1) →
      s1.counter = s.counter) := by
  by_cases hT : env.isType sub = true
  · rcases hi1 : issubclass env fuel s sub self with ⟨r1, t1⟩
    have q1 := qp_issubclass env fuel s sub self
    rw [hi1] at q1
    rcases r1 with e1 | b1
    · have hreg := register_err1 env fuel s t1 self sub e1 hT hi1
      constructor
      · intro x s1 hx
        rw [hreg] at hx
        simp at hx
      · intro e s1 hx
        rw [hreg] at hx
        injection hx with h1 h2
        rw [← h2]
        exact q1.2.1
    · rcases b1 with _ | _
      · rcases hi2 : issubclass env fuel t1 self sub with ⟨r2, t2⟩
        have q2 := qp_issubclass env fuel t1 self sub
        rw [hi2] at q2
        rcases r2 with e2 | b2
        · have hreg := register_err2 env fuel s t1 t2 self sub e2 hT hi1 hi2
          constructor
          · intro x s1 hx
            rw [hreg] at hx
            simp at hx
          · intro e s1 hx
            rw [hreg] at hx
            injection hx with h1 h2
            rw [← h2, q2.2.1]
            exact q1.2.1
        · rcases b2 with _ | _
          · have hreg := register_commit env fuel s t1 t2 self sub hT hi1 hi2
            constructor
            · intro x s1 hx
              rw [hreg] at hx
              injection hx with h1 h2
              rw [← h2]
              right
              refine ⟨rfl, ?_⟩
              show t2.counter + 1 = s.counter + 1
              rw [q2.2.1, q1.2.1]
            · intro e s1 hx
              rw [hreg] at hx
              simp at hx
          · have hreg := register_cycle env fuel s t1 t2 self sub hT hi1 hi2
            constructor
            · intro x s1 hx
              rw [hreg] at hx
              simp at hx
            · intro e s1 hx
              rw [hreg] at hx
              injection hx with h1 h2
              rw [← h2, q2.2.1]
              exact q1.2.1
      · have hreg := register_noop env fuel s t1 self sub hT hi1
        constructor
        · intro x s1 hx
          rw [hreg] at hx
          injection hx with h1 h2
          rw [← h2]
          left
          exact ⟨rfl, q1.2.1⟩
        · intro e s1 hx
          rw [hreg] at hx
          simp at hx
  · have hreg := register_not_a_type env fuel s self sub (by simpa using hT)
    constructor
    · intro x s1 hx
      rw [hreg] at hx
      simp at hx
    · intro e s1 hx
      rw [hreg] at hx
      injection hx with h1 h2
      rw [← h2]

/-- C3 (amended): `declare` never partially commits its registration:
it either commits in full — `T` enters `G`'s registry, the counter
rises by one, and no other registry is touched — or (on `NotAType`, on
`CycleRejected`, or as an idempotent no-op) leaves every registry and
the counter unchanged.  The positive/negative caches, however, may be
updated in either case by the membership checks `declare` performs, so
the spec's "no change at all" holds for registry and epoch only. -/
theorem C3_theorem (env : Env) (fuel : Nat) (s : ABCState) (G T : Nat) :
    (∀ e s1, register env fuel s G T = (.error e, s1) →
      (∀ g, s1.registry g = s.registry g) ∧ s1.counter = s.counter) ∧
    (∀ x s1, register env fuel s G T = (.ok x, s1) →
      x = T ∧
        (((∀ g, s1.registry g = s.registry g) ∧ s1.counter = s.counter) ∨
          (T ∈ s1.registry G ∧ s1.counter = s.counter + 1 ∧
            ∀ g, g ≠ G → s1.registry g = s.registry g))) := by
  by_cases hT : env.isType T = true
  · rcases hi1 : issubclass env fuel s T G with ⟨r1, t1⟩
    have q1 := qp_issubclass env fuel s T G
    rw [hi1] at q1
    rcases r1 with e1 | b1
    · have hreg := register_err1 env fuel s t1 G T e1 hT hi1
      constructor
      · intro e s1 hx
        rw [hreg] at hx
        injection hx with h1 h2
        rw [← h2, q1.1]
        exact ⟨fun g => rfl, q1.2.1⟩
      · intro x s1 hx
        rw [hreg] at hx
        simp at hx
    · rcases b1 with _ | _
      · rcases hi2 : issubclass env fuel t1 G T with ⟨r2, t2⟩
        have q2 := qp_issubclass env fuel t1 G T
        rw [hi2] at q2
        rcases r2 with e2 | b2
        · have hreg := register_err2 env fuel s t1 t2 G T e2 hT hi1 hi2
          constructor
          · intro e s1 hx
            rw [hreg] at hx
            injection hx with h1 h2
            rw [← h2, q2.1, q1.1]
            refine ⟨fun g => rfl, ?_⟩
            rw [q2.2.1, q1.2.1]
          · intro x s1 hx
            rw [hreg] at hx
            simp at hx
        · rcases b2 with _ | _
          · have hreg := register_commit env fuel s t1 t2 G T hT hi1 hi2
            constructor
            · intro e s1 hx
              rw [hreg] at hx
              simp at hx
            · intro x s1 hx
              rw [hreg] at hx
              injection hx with h1 h2
              injection h1 with h1
              refine ⟨h1.symm, Or.inr ⟨?_, ?_, ?_⟩⟩
              · rw [← h2]
                show T ∈ setAt t2.registry G (wsAdd (t2.registry G) T) G
                rw [setAt_self]
                exact wsAdd_mem_self _ _
              · rw [← h2]
                show t2.counter + 1 = s.counter + 1
                rw [q2.2.1, q1.2.1]
              · intro g hg
                rw [← h2]
                show setAt t2.registry G (wsAdd (t2.registry G) T) g = s.registry g
                rw [setAt_other _ _ _ _ hg, q2.1, q1.1]
          · have hreg := register_cycle env fuel s t1 t2 G T hT hi1 hi2
            constructor
            · intro e s1 hx
              rw [hreg] at hx
              injection hx with h1 h2
              rw [← h2, q2.1, q1.1]
              refine ⟨fun g => rfl, ?_⟩
              rw [q2.2.1, q1.2.1]
            · intro x s1 hx
              rw [hreg] at hx
              simp at hx
      · have hreg := register_noop env fuel s t1 G T hT hi1
        constructor
        · intro e s1 hx
          rw [hreg] at hx
          simp at hx
        · intro x s1 hx
          rw [hreg] at hx
          injection hx with h1 h2
          injection h1 with h1
          refine ⟨h1.symm, Or.inl ?_⟩
          rw [← h2, q1.1]
          exact ⟨fun g => rfl, q1.2.1⟩
  · have hreg := register_not_a_type env fuel s G T (by simpa using hT)
    constructor
    · intro e s1 hx
      rw [hreg] at hx
      injection hx with h1 h2
      rw [← h2]
      exact ⟨fun g => rfl, rfl⟩
    · intro x s1 hx
      rw [hreg] at hx
      simp at hx

theorem wsAdd_not_mem (l : List Nat) (t : Nat) (h : t ∉ l) : wsAdd l t = t :: l := by
  unfold wsAdd
  rw [if_neg h]

/-- C1 (amended): a fresh declaration overrides a prior negative
answer, provided `G`'s subclass hook has no definite verdict on `T`,
`T` was not already registered under `G`, `T` lists itself in its own
mro, `T`'s own hook (when `T` is itself an ABC) does not deny `T`, and
no negative-cache stamp exceeds the global counter: if
`satisfiesType(G, T)` answers false and `declare(G, T)` then commits,
every subsequent `satisfiesType(G, T)` (with fuel at least 2) answers
true, because the commit bumped the counter and so invalidated the
negative cache, after which the registry entry is found. -/
theorem C1_theorem (env : Env) (fuel : Nat) (s s1 s2 : ABCState) (G T : Nat)
    (hABC : env.isABC G = true)
    (hfalse : subclasscheck env fuel s G T = (.ok false, s1))
    (hreg : register env fuel s G T = (.ok T, s2))
    (hhk : env.hook G T = .undecided)
    (hfresh : T ∉ s.registry G)
    (hmroT : T ∈ env.mro T)
    (hTT : env.hook T T ≠ .no)
    (hver : ∀ g, s.negVersion g ≤ s.counter) :
    ∀ k, (subclasscheck env (k + 2) s2 G T).1 = .ok true := by
  have hT : env.isType T = true := register_ok_isType env fuel s s2 G T T hreg
  have q1 : QP s s1 := by
    have := qp_subclasscheck env fuel s G T
    rw [hfalse] at this
    exact this
  have h1 : issubclass env fuel s T G = (.ok false, s1) := by
    rw [issubclass_abc env fuel s T G hABC]
    exact hfalse
  rcases hi2 : issubclass env fuel s1 G T with ⟨r2, t2⟩
  have q2 : QP s1 t2 := by
    have := qp_issubclass env fuel s1 G T
    rw [hi2] at this
    exact this
  rcases r2 with e2 | b2
  · rw [register_err2 env fuel s s1 t2 G T e2 hT h1 hi2] at hreg
    simp at hreg
  rcases b2 with _ | _
  case mk.ok.false =>
    -- the committing case
    have hcommit := register_commit env fuel s s1 t2 G T hT h1 hi2
    rw [hcommit] at hreg
    injection hreg with hx hs2
    -- facts about the committed state
    have hregG : s2.registry G = T :: s.registry G := by
      rw [← hs2]
      show setAt t2.registry G (wsAdd (t2.registry G) T) G = T :: s.registry G
      rw [setAt_self, q2.1, q1.1]
      exact wsAdd_not_mem _ _ hfresh
    have hcnt : s2.counter = s.counter + 1 := by
      rw [← hs2]
      show t2.counter + 1 = s.counter + 1
      rw [q2.2.1, q1.2.1]
    have hcache : s2.cache = t2.cache := by
      rw [← hs2]
    have hnegv : s2.negVersion = t2.negVersion := by
      rw [← hs2]
    have hle : ∀ g, s2.negVersion g ≤ s.counter := by
      intro g
      rw [hnegv]
      rcases q2.2.2.2 g with h | h
      · rcases q1.2.2.2 g with h0 | h0
        · rw [h, h0]
          exact hver g
        · rw [h, h0]
      · rw [h, q1.2.1]
    have hlt : ∀ g, s2.negVersion g < s2.counter := by
      intro g
      rw [hcnt]
      exact Nat.lt_succ_of_le (hle g)
    intro k
    show (subclasscheck env (k + 1 + 1) s2 G T).1 = .ok true
    by_cases hch : T ∈ s2.cache G
    · rw [subclasscheck_cache_hit env (k + 1) s2 G T hT hch]
    · have hmain : ∃ sx, subclasscheck env (k + 1 + 1) s2 G T = (.ok true, sx) := by
        by_cases hmG : G ∈ env.mro T
        · exact ⟨_, subclasscheck_mro_true_stale env (k + 1) s2 G T hT hch (hlt G) hhk hmG⟩
        · have hhead : ∃ sy,
              issubclass env (k + 1) (s2.resetNegCache G) T T = (.ok true, sy) := by
            rcases hAB : env.isABC T with _ | _
            · refine ⟨s2.resetNegCache G, ?_⟩
              rw [issubclass_plain env (k + 1) (s2.resetNegCache G) T T hAB hT hT]
              simp [hmroT]
            · rw [issubclass_abc env (k + 1) (s2.resetNegCache G) T T hAB]
              by_cases hchT : T ∈ (s2.resetNegCache G).cache T
              · exact ⟨_, subclasscheck_cache_hit env k (s2.resetNegCache G) T T hT hchT⟩
              · by_cases hTG : T = G
                · subst hTG
                  have hvG : ¬ (s2.resetNegCache T).negVersion T <
                      (s2.resetNegCache T).counter := by
                    rw [resetNegCache_negVersion_self, resetNegCache_counter]
                    exact Nat.lt_irrefl _
                  have hnG : T ∉ (s2.resetNegCache T).negCache T := by
                    rw [resetNegCache_negCache_self]
                    exact List.not_mem_nil T
                  exact ⟨_, subclasscheck_mro_true env k (s2.resetNegCache T) T T hT
                    hchT hvG hnG hhk hmroT⟩
                · have hvT : (s2.resetNegCache G).negVersion T <
                      (s2.resetNegCache G).counter := by
                    rw [resetNegCache_negVersion_other s2 G T hTG, resetNegCache_counter]
                    exact hlt T
                  rcases hhkT : env.hook T T with _ | _ | _
                  · exact ⟨_, subclasscheck_hook_yes_stale env k (s2.resetNegCache G) T T
                      hT hchT hvT hhkT⟩
                  · exact absurd hhkT hTT
                  · exact ⟨_, subclasscheck_mro_true_stale env k (s2.resetNegCache G) T T
                      hT hchT hvT hhkT hmroT⟩
          obtain ⟨sy, hy⟩ := hhead
          exact ⟨_, subclasscheck_reg_head_true_stale env (k + 1) s2 sy G T T
            (s.registry G) hT hch (hlt G) hhk hmG hregG hy⟩
      obtain ⟨sx, hx⟩ := hmain
      rw [hx]
  case mk.ok.true =>
    rw [register_cycle env fuel s s1 t2 G T hT h1 hi2] at hreg
    simp at hreg

theorem wsAdd_nil (t : Nat) : wsAdd [] t = [t] := by
  simp [wsAdd]

/-- A freshly constructed, so-far-unrelated capability group: a class
with `ABCMeta` metaclass, no ancestors besides itself, no normal
subclasses, and empty registry and caches stamped with the current
counter (the state `construct` produces when nothing has been declared
since). -/
def freshGroup (env : Env) (s : ABCState) (G : Nat) : Prop :=
  env.isType G = true ∧ env.isABC G = true ∧ env.mro G = [G] ∧
    env.subclasses G = [] ∧ s.registry G = [] ∧ s.cache G = [] ∧
    s.negCache G = [] ∧ s.negVersion G = s.counter

/-- C4: cycle rejection for fresh, unrelated groups with undecided
hooks: after `declare(G, H)` commits, `declare(H, G)` fails with the
cycle error, the registries of both groups are exactly as the first
declaration left them, and `satisfiesType(H, G)` still answers false
afterwards. -/
theorem C4_theorem (env : Env) (s : ABCState) (G H : Nat) (n m k : Nat)
    (hG : freshGroup env s G) (hH : freshGroup env s H) (hne : G ≠ H)
    (hkGH : env.hook G H = .undecided) (hkHG : env.hook H G = .undecided)
    (hkHH : env.hook H H = .undecided) :
    (register env (n + 1) s G H).1 = .ok H ∧
    (register env (m + 2) (register env (n + 1) s G H).2 H G).1 =
      .error .cycleRejected ∧
    ((register env (m + 2) (register env (n + 1) s G H).2 H G).2).registry G =
      ((register env (n + 1) s G H).2).registry G ∧
    ((register env (m + 2) (register env (n + 1) s G H).2 H G).2).registry H =
      ((register env (n + 1) s G H).2).registry H ∧
    (subclasscheck env (k + 1)
      (register env (m + 2) (register env (n + 1) s G H).2 H G).2 H G).1 =
      .ok false := by
  obtain ⟨hGt, hGa, hGm, hGs, hGr, hGc, hGn, hGv⟩ := hG
  obtain ⟨hHt, hHa, hHm, hHs, hHr, hHc, hHn, hHv⟩ := hH
  have hneH : H ≠ G := fun h => hne h.symm
  -- first declaration: both membership checks answer false, then commit
  have hA : subclasscheck env (n + 1) s G H = (.ok false, s.addNegCache G H) := by
    refine subclasscheck_fresh_false env n s G H hHt ?_ ?_ ?_ hkGH ?_ hGr hGs
    · rw [hGc]; exact List.not_mem_nil H
    · rw [hGv]; exact Nat.lt_irrefl _
    · rw [hGn]; exact List.not_mem_nil H
    · rw [hHm]; simp [hne]
  have hB : subclasscheck env (n + 1) (s.addNegCache G H) H G =
      (.ok false, (s.addNegCache G H).addNegCache H G) := by
    refine subclasscheck_fresh_false env n (s.addNegCache G H) H G hGt ?_ ?_ ?_ hkHG ?_ ?_ hHs
    · rw [addNegCache_cache, hHc]; exact List.not_mem_nil G
    · rw [addNegCache_negVersion, addNegCache_counter, hHv]; exact Nat.lt_irrefl _
    · rw [addNegCache_negCache_other s G H H hneH, hHn]; exact List.not_mem_nil G
    · rw [hGm]; simp [hneH]
    · rw [addNegCache_registry, hHr]
  have hA' : issubclass env (n + 1) s H G = (.ok false, s.addNegCache G H) := by
    rw [issubclass_abc env (n + 1) s H G hGa]; exact hA
  have hB' : issubclass env (n + 1) (s.addNegCache G H) G H =
      (.ok false, (s.addNegCache G H).addNegCache H G) := by
    rw [issubclass_abc env (n + 1) (s.addNegCache G H) G H hHa]; exact hB
  obtain ⟨s1, hreg1, hs1⟩ :
      ∃ s1, register env (n + 1) s G H = (.ok H, s1) ∧
        s1 = { (s.addNegCache G H).addNegCache H G with
          registry := setAt ((s.addNegCache G H).addNegCache H G).registry G
            (wsAdd (((s.addNegCache G H).addNegCache H G).registry G) H),
          counter := ((s.addNegCache G H).addNegCache H G).counter + 1 } :=
    ⟨_, register_commit env (n + 1) s (s.addNegCache G H)
      ((s.addNegCache G H).addNegCache H G) G H hHt hA' hB', rfl⟩
  -- fields of the state after the first declaration
  have h1cache : s1.cache = s.cache := by
    rw [hs1]
    show ((s.addNegCache G H).addNegCache H G).cache = s.cache
    rw [addNegCache_cache, addNegCache_cache]
  have h1negV : s1.negVersion = s.negVersion := by
    rw [hs1]
    show ((s.addNegCache G H).addNegCache H G).negVersion = s.negVersion
    rw [addNegCache_negVersion, addNegCache_negVersion]
  have h1negCH : s1.negCache H = wsAdd (s.negCache H) G := by
    rw [hs1]
    show ((s.addNegCache G H).addNegCache H G).negCache H = _
    rw [addNegCache_negCache_self, addNegCache_negCache_other s G H H hneH]
  have h1cnt : s1.counter = s.counter + 1 := by
    rw [hs1]
    show ((s.addNegCache G H).addNegCache H G).counter + 1 = s.counter + 1
    rw [addNegCache_counter, addNegCache_counter]
  have h1rG : s1.registry G = [H] := by
    rw [hs1]
    show setAt ((s.addNegCache G H).addNegCache H G).registry G
      (wsAdd (((s.addNegCache G H).addNegCache H G).registry G) H) G = [H]
    rw [setAt_self, addNegCache_registry, addNegCache_registry, hGr, wsAdd_nil]
  have h1rH : s1.registry H = s.registry H := by
    rw [hs1]
    show setAt ((s.addNegCache G H).addNegCache H G).registry G
      (wsAdd (((s.addNegCache G H).addNegCache H G).registry G) H) H = s.registry H
    rw [setAt_other _ _ _ _ hneH, addNegCache_registry, addNegCache_registry]
  -- second declaration, first membership check (stale negative cache)
  have hD : subclasscheck env (m + 2) s1 H G =
      (.ok false, (s1.resetNegCache H).addNegCache H G) := by
    refine subclasscheck_fresh_false_stale env (m + 1) s1 H G hGt ?_ ?_ hkHG ?_ ?_ hHs
    · rw [h1cache, hHc]; exact List.not_mem_nil G
    · rw [h1negV, hHv, h1cnt]; exact Nat.lt_succ_of_le (Nat.le_refl _)
    · rw [hGm]; simp [hneH]
    · rw [h1rH, hHr]
  have hD' : issubclass env (m + 2) s1 G H =
      (.ok false, (s1.resetNegCache H).addNegCache H G) := by
    rw [issubclass_abc env (m + 2) s1 G H hHa]; exact hD
  -- second declaration, cycle check: the registry entry is found
  have hEmem : subclasscheck env (m + 1)
      (((s1.resetNegCache H).addNegCache H G).resetNegCache G) H H =
      (.ok true,
        ((((s1.resetNegCache H).addNegCache H G).resetNegCache G).addCache H H)) := by
    refine subclasscheck_mro_true env m _ H H hHt ?_ ?_ ?_ hkHH ?_
    · rw [resetNegCache_cache, addNegCache_cache, resetNegCache_cache, h1cache, hHc]
      exact List.not_mem_nil H
    · rw [resetNegCache_negVersion_other _ G H hneH, addNegCache_negVersion,
        resetNegCache_negVersion_self, resetNegCache_counter, addNegCache_counter,
        resetNegCache_counter]
      exact Nat.lt_irrefl _
    · rw [resetNegCache_negCache_other _ G H hneH, addNegCache_negCache_self,
        resetNegCache_negCache_self, wsAdd_nil]
      simp [hneH]
    · rw [hHm]; exact List.mem_singleton.mpr rfl
  have hE' : issubclass env (m + 1)
      (((s1.resetNegCache H).addNegCache H G).resetNegCache G) H H =
      (.ok true,
        ((((s1.resetNegCache H).addNegCache H G).resetNegCache G).addCache H H)) := by
    rw [issubclass_abc env (m + 1) _ H H hHa]; exact hEmem
  have hF : subclasscheck env (m + 2) ((s1.resetNegCache H).addNegCache H G) G H =
      (.ok true,
        (((((s1.resetNegCache H).addNegCache H G).resetNegCache G).addCache H H).addCache
          G H)) := by
    refine subclasscheck_reg_head_true_stale env (m + 1)
      ((s1.resetNegCache H).addNegCache H G) _ G H H [] hHt ?_ ?_ hkGH ?_ ?_ hE'
    · rw [addNegCache_cache, resetNegCache_cache, h1cache, hGc]
      exact List.not_mem_nil H
    · rw [addNegCache_negVersion, resetNegCache_negVersion_other _ H G hne,
        h1negV, hGv, addNegCache_counter, resetNegCache_counter, h1cnt]
      exact Nat.lt_succ_of_le (Nat.le_refl _)
    · rw [hHm]; simp [hne]
    · rw [addNegCache_registry, resetNegCache_registry, h1rG]
  have hF' : issubclass env (m + 2) ((s1.resetNegCache H).addNegCache H G) H G =
      (.ok true,
        (((((s1.resetNegCache H).addNegCache H G).resetNegCache G).addCache H H).addCache
          G H)) := by
    rw [issubclass_abc env (m + 2) _ H G hGa]; exact hF
  have hreg2 : register env (m + 2) s1 H G =
      (.error .cycleRejected,
        (((((s1.resetNegCache H).addNegCache H G).resetNegCache G).addCache H H).addCache
          G H)) :=
    register_cycle env (m + 2) s1 ((s1.resetNegCache H).addNegCache H G) _ H G hGt hD' hF'
  -- the final state and the persistent negative answer
  have hfinreg : ∀ g,
      ((((((s1.resetNegCache H).addNegCache H G).resetNegCache G).addCache H H).addCache
        G H)).registry g = s1.registry g := by
    intro g
    rw [addCache_registry, addCache_registry, resetNegCache_registry,
      addNegCache_registry, resetNegCache_registry]
  have hfinal : subclasscheck env (k + 1)
      (((((s1.resetNegCache H).addNegCache H G).resetNegCache G).addCache H H).addCache
        G H) H G =
      (.ok false,
        (((((s1.resetNegCache H).addNegCache H G).resetNegCache G).addCache H H).addCache
          G H)) := by
    refine subclasscheck_neg_hit env k _ H G hGt ?_ ?_ ?_
    · rw [addCache_cache_other _ G H H hneH, addCache_cache_self, resetNegCache_cache,
        addNegCache_cache, resetNegCache_cache, h1cache, hHc, wsAdd_nil]
      simp [hne]
    · rw [addCache_negVersion, addCache_negVersion,
        resetNegCache_negVersion_other _ G H hneH, addNegCache_negVersion,
        resetNegCache_negVersion_self, addCache_counter, addCache_counter,
        resetNegCache_counter, addNegCache_counter, resetNegCache_counter]
      exact Nat.lt_irrefl _
    · rw [addCache_negCache, addCache_negCache, resetNegCache_negCache_other _ G H hneH,
        addNegCache_negCache_self, resetNegCache_negCache_self, wsAdd_nil]
      exact List.mem_singleton.mpr rfl
  rw [hreg1]
  refine ⟨rfl, ?_, ?_, ?_, ?_⟩
  · show (register env (m + 2) s1 H G).1 = .error .cycleRejected
    rw [hreg2]
  · show ((register env (m + 2) s1 H G).2).registry G = s1.registry G
    rw [hreg2]
    exact hfinreg G
  · show ((register env (m + 2) s1 H G).2).registry H = s1.registry H
    rw [hreg2]
    exact hfinreg H
  · show (subclasscheck env (k + 1) ((register env (m + 2) s1 H G).2) H G).1 = .ok false
    rw [hreg2]
    show (subclasscheck env (k + 1) _ H G).1 = .ok false
    rw [hfinal]

/-- Declaring one fresh group under another commits: both membership
checks answer false (caching negatives), then the registry gains the
member and the counter rises. -/
theorem register_fresh_commit (env : Env) (s : ABCState) (G H : Nat) (n : Nat)
    (hG : freshGroup env s G) (hH : freshGroup env s H) (hne : G ≠ H)
    (hkGH : env.hook G H = .undecided) (hkHG : env.hook H G = .undecided) :
    register env (n + 1) s G H =
      (.ok H,
        { (s.addNegCache G H).addNegCache H G with
          registry := setAt ((s.addNegCache G H).addNegCache H G).registry G
            (wsAdd (((s.addNegCache G H).addNegCache H G).registry G) H),
          counter := ((s.addNegCache G H).addNegCache H G).counter + 1 }) := by
  obtain ⟨hGt, hGa, hGm, hGs, hGr, hGc, hGn, hGv⟩ := hG
  obtain ⟨hHt, hHa, hHm, hHs, hHr, hHc, hHn, hHv⟩ := hH
  have hneH : H ≠ G := fun h => hne h.symm
  have hA : subclasscheck env (n + 1) s G H = (.ok false, s.addNegCache G H) := by
    refine subclasscheck_fresh_false env n s G H hHt ?_ ?_ ?_ hkGH ?_ hGr hGs
    · rw [hGc]; exact List.not_mem_nil H
    · rw [hGv]; exact Nat.lt_irrefl _
    · rw [hGn]; exact List.not_mem_nil H
    · rw [hHm]; simp [hne]
  have hB : subclasscheck env (n + 1) (s.addNegCache G H) H G =
      (.ok false, (s.addNegCache G H).addNegCache H G) := by
    refine subclasscheck_fresh_false env n (s.addNegCache G H) H G hGt ?_ ?_ ?_ hkHG ?_ ?_ hHs
    · rw [addNegCache_cache, hHc]; exact List.not_mem_nil G
    · rw [addNegCache_negVersion, addNegCache_counter, hHv]; exact Nat.lt_irrefl _
    · rw [addNegCache_negCache_other s G H H hneH, hHn]; exact List.not_mem_nil G
    · rw [hGm]; simp [hneH]
    · rw [addNegCache_registry, hHr]
  have hA' : issubclass env (n + 1) s H G = (.ok false, s.addNegCache G H) := by
    rw [issubclass_abc env (n + 1) s H G hGa]; exact hA
  have hB' : issubclass env (n + 1) (s.addNegCache G H) G H =
      (.ok false, (s.addNegCache G H).addNegCache H G) := by
    rw [issubclass_abc env (n + 1) (s.addNegCache G H) G H hHa]; exact hB
  exact register_commit env (n + 1) s (s.addNegCache G H)
    ((s.addNegCache G H).addNegCache H G) G H hHt hA' hB'

/-- C7: virtual membership is transitive through the registry
recursion: for fresh groups `A`, `B` and a fresh plain class `C` with
no normal-subtype relationship and undecided hooks, after
`declare(A, B)` and `declare(B, C)` both commit, `satisfiesType(A, C)`
answers true even though `C` was never declared under `A`. -/
theorem C7_theorem (env : Env) (s : ABCState) (A B C : Nat) (n m k : Nat)
    (hA : freshGroup env s A) (hB : freshGroup env s B)
    (hCt : env.isType C = true) (hCa : env.isABC C = false) (hCm : env.mro C = [C])
    (hAB : A ≠ B) (hAC : A ≠ C) (hBC : B ≠ C)
    (hkAB : env.hook A B = .undecided) (hkBA : env.hook B A = .undecided)
    (hkBC : env.hook B C = .undecided) (hkAC : env.hook A C = .undecided) :
    (register env (n + 1) s A B).1 = .ok B ∧
    (register env (m + 1) (register env (n + 1) s A B).2 B C).1 = .ok C ∧
    (subclasscheck env (k + 3)
      (register env (m + 1) (register env (n + 1) s A B).2 B C).2 A C).1 = .ok true := by
  have hAt := hA.1
  have hAa := hA.2.1
  have hAm := hA.2.2.1
  have hAc := hA.2.2.2.2.2.1
  have hAv := hA.2.2.2.2.2.2.2
  have hBt := hB.1
  have hBa := hB.2.1
  have hBm := hB.2.2.1
  have hBs := hB.2.2.2.1
  have hBr := hB.2.2.2.2.1
  have hBc := hB.2.2.2.2.2.1
  have hBv := hB.2.2.2.2.2.2.2
  have hneBA : B ≠ A := fun h => hAB h.symm
  have hneCB : C ≠ B := fun h => hBC h.symm
  have hneCA : C ≠ A := fun h => hAC h.symm
  obtain ⟨s1, hreg1, hs1⟩ :
      ∃ s1, register env (n + 1) s A B = (.ok B, s1) ∧
        s1 = { (s.addNegCache A B).addNegCache B A with
          registry := setAt ((s.addNegCache A B).addNegCache B A).registry A
            (wsAdd (((s.addNegCache A B).addNegCache B A).registry A) B),
          counter := ((s.addNegCache A B).addNegCache B A).counter + 1 } :=
    ⟨_, register_fresh_commit env s A B n hA hB hAB hkAB hkBA, rfl⟩
  have h1cache : s1.cache = s.cache := by
    rw [hs1]
    show ((s.addNegCache A B).addNegCache B A).cache = s.cache
    rw [addNegCache_cache, addNegCache_cache]
  have h1negV : s1.negVersion = s.negVersion := by
    rw [hs1]
    show ((s.addNegCache A B).addNegCache B A).negVersion = s.negVersion
    rw [addNegCache_negVersion, addNegCache_negVersion]
  have h1cnt : s1.counter = s.counter + 1 := by
    rw [hs1]
    show ((s.addNegCache A B).addNegCache B A).counter + 1 = s.counter + 1
    rw [addNegCache_counter, addNegCache_counter]
  have h1rA : s1.registry A = [B] := by
    rw [hs1]
    show setAt ((s.addNegCache A B).addNegCache B A).registry A
      (wsAdd (((s.addNegCache A B).addNegCache B A).registry A) B) A = [B]
    rw [setAt_self, addNegCache_registry, addNegCache_registry,
      hA.2.2.2.2.1, wsAdd_nil]
  have h1rB : s1.registry B = [] := by
    rw [hs1]
    show setAt ((s.addNegCache A B).addNegCache B A).registry A
      (wsAdd (((s.addNegCache A B).addNegCache B A).registry A) B) B = []
    rw [setAt_other _ _ _ _ hneBA, addNegCache_registry, addNegCache_registry, hBr]
  -- second declaration: declare(B, C)
  have hD : subclasscheck env (m + 1) s1 B C =
      (.ok false, (s1.resetNegCache B).addNegCache B C) := by
    refine subclasscheck_fresh_false_stale env m s1 B C hCt ?_ ?_ hkBC ?_ h1rB hBs
    · rw [h1cache, hBc]; exact List.not_mem_nil C
    · rw [h1negV, hBv, h1cnt]; exact Nat.lt_succ_of_le (Nat.le_refl _)
    · rw [hCm]; simp [hBC]
  have hD' : issubclass env (m + 1) s1 C B =
      (.ok false, (s1.resetNegCache B).addNegCache B C) := by
    rw [issubclass_abc env (m + 1) s1 C B hBa]; exact hD
  have hE' : issubclass env (m + 1) ((s1.resetNegCache B).addNegCache B C) B C =
      (.ok false, (s1.resetNegCache B).addNegCache B C) := by
    rw [issubclass_plain env (m + 1) _ B C hCa hBt hCt]
    have : decide (C ∈ env.mro B) = false := by
      rw [hBm]
      simp [hneCB]
    rw [this]
  obtain ⟨s2, hreg2, hs2⟩ :
      ∃ s2, register env (m + 1) s1 B C = (.ok C, s2) ∧
        s2 = { (s1.resetNegCache B).addNegCache B C with
          registry := setAt ((s1.resetNegCache B).addNegCache B C).registry B
            (wsAdd (((s1.resetNegCache B).addNegCache B C).registry B) C),
          counter := ((s1.resetNegCache B).addNegCache B C).counter + 1 } :=
    ⟨_, register_commit env (m + 1) s1 ((s1.resetNegCache B).addNegCache B C)
      ((s1.resetNegCache B).addNegCache B C) B C hCt hD' hE', rfl⟩
  have h2cache : s2.cache = s.cache := by
    rw [hs2]
    show ((s1.resetNegCache B).addNegCache B C).cache = s.cache
    rw [addNegCache_cache, resetNegCache_cache, h1cache]
  have h2cnt : s2.counter = s.counter + 1 + 1 := by
    rw [hs2]
    show ((s1.resetNegCache B).addNegCache B C).counter + 1 = s.counter + 1 + 1
    rw [addNegCache_counter, resetNegCache_counter, h1cnt]
  have h2vA : s2.negVersion A = s.negVersion A := by
    rw [hs2]
    show ((s1.resetNegCache B).addNegCache B C).negVersion A = s.negVersion A
    rw [addNegCache_negVersion, resetNegCache_negVersion_other _ B A hAB, h1negV]
  have h2vB : s2.negVersion B = s.counter + 1 := by
    rw [hs2]
    show ((s1.resetNegCache B).addNegCache B C).negVersion B = s.counter + 1
    rw [addNegCache_negVersion, resetNegCache_negVersion_self, h1cnt]
  have h2rA : s2.registry A = [B] := by
    rw [hs2]
    show setAt ((s1.resetNegCache B).addNegCache B C).registry B
      (wsAdd (((s1.resetNegCache B).addNegCache B C).registry B) C) A = [B]
    rw [setAt_other _ _ _ _ hAB, addNegCache_registry, resetNegCache_registry, h1rA]
  have h2rB : s2.registry B = [C] := by
    rw [hs2]
    show setAt ((s1.resetNegCache B).addNegCache B C).registry B
      (wsAdd (((s1.resetNegCache B).addNegCache B C).registry B) C) B = [C]
    rw [setAt_self, addNegCache_registry, resetNegCache_registry, h1rB, wsAdd_nil]
  -- the transitive query satisfiesType(A, C)
  have hinner2 : issubclass env (k + 1)
      (((s2.resetNegCache A).resetNegCache B)) C C =
      (.ok true, ((s2.resetNegCache A).resetNegCache B)) := by
    rw [issubclass_plain env (k + 1) _ C C hCa hCt hCt]
    have : decide (C ∈ env.mro C) = true := by
      rw [hCm]
      simp
    rw [this]
  have hinner : subclasscheck env (k + 2) (s2.resetNegCache A) B C =
      (.ok true, ((s2.resetNegCache A).resetNegCache B).addCache B C) := by
    refine subclasscheck_reg_head_true_stale env (k + 1) (s2.resetNegCache A) _ B C C []
      hCt ?_ ?_ hkBC ?_ ?_ hinner2
    · rw [resetNegCache_cache, h2cache, hBc]; exact List.not_mem_nil C
    · rw [resetNegCache_negVersion_other _ A B hneBA, h2vB, resetNegCache_counter,
        h2cnt]
      exact Nat.lt_succ_of_le (Nat.le_refl _)
    · rw [hCm]; simp [hBC]
    · rw [resetNegCache_registry, h2rB]
  have hinner' : issubclass env (k + 2) (s2.resetNegCache A) C B =
      (.ok true, ((s2.resetNegCache A).resetNegCache B).addCache B C) := by
    rw [issubclass_abc env (k + 2) _ C B hBa]; exact hinner
  have houter : subclasscheck env (k + 3) s2 A C =
      (.ok true, (((s2.resetNegCache A).resetNegCache B).addCache B C).addCache A C) := by
    refine subclasscheck_reg_head_true_stale env (k + 2) s2 _ A C B [] hCt ?_ ?_ hkAC ?_
      h2rA hinner'
    · rw [h2cache, hAc]; exact List.not_mem_nil C
    · rw [h2vA, hAv, h2cnt]
      calc s.counter < s.counter + 1 := Nat.lt_succ_of_le (Nat.le_refl _)
        _ < s.counter + 1 + 1 := Nat.lt_succ_of_le (Nat.le_refl _)
    · rw [hCm]; simp [hAC]
  rw [hreg1]
  refine ⟨rfl, ?_, ?_⟩
  · show (register env (m + 1) s1 B C).1 = .ok C
    rw [hreg2]
  · show (subclasscheck env (k + 3) ((register env (m + 1) s1 B C).2) A C).1 = .ok true
    rw [hreg2]
    show (subclasscheck env (k + 3) s2 A C).1 = .ok true
    rw [houter]

/-- C9 (amended): self-registration is a no-op because the
already-satisfies check runs before the cycle check — provided `G`
satisfies itself: `G`'s hook must not deny `G`, `G` must list itself in
its mro, and `G` must not be negatively self-cached at the current
counter (with the stamp never exceeding the counter).  Then
`declare(G, G)` returns `G` without `CycleRejected`, without touching
`G`'s registry, and without moving the global counter. -/
theorem C9_theorem (env : Env) (s : ABCState) (G : Nat) (k : Nat)
    (hABC : env.isABC G = true) (hT : env.isType G = true)
    (hmro : G ∈ env.mro G) (hhk : env.hook G G ≠ .no)
    (hle : s.negVersion G ≤ s.counter)
    (hcur : s.negVersion G = s.counter → G ∉ s.negCache G) :
    (register env (k + 1) s G G).1 = .ok G ∧
    ((register env (k + 1) s G G).2).registry G = s.registry G ∧
    ((register env (k + 1) s G G).2).counter = s.counter := by
  obtain ⟨sx, hx, hrx, hcx⟩ :
      ∃ sx, subclasscheck env (k + 1) s G G = (.ok true, sx) ∧
        sx.registry G = s.registry G ∧ sx.counter = s.counter := by
    by_cases hch : G ∈ s.cache G
    · exact ⟨s, subclasscheck_cache_hit env k s G G hT hch, rfl, rfl⟩
    · by_cases hstale : s.negVersion G < s.counter
      · rcases hhkc : env.hook G G with _ | _ | _
        · refine ⟨_, subclasscheck_hook_yes_stale env k s G G hT hch hstale hhkc, ?_, ?_⟩
          · rw [addCache_registry, resetNegCache_registry]
          · rw [addCache_counter, resetNegCache_counter]
        · exact absurd hhkc hhk
        · refine ⟨_, subclasscheck_mro_true_stale env k s G G hT hch hstale hhkc hmro,
            ?_, ?_⟩
          · rw [addCache_registry, resetNegCache_registry]
          · rw [addCache_counter, resetNegCache_counter]
      · have hveq : s.negVersion G = s.counter :=
          Nat.le_antisymm hle (Nat.le_of_not_lt hstale)
        have hn := hcur hveq
        rcases hhkc : env.hook G G with _ | _ | _
        · refine ⟨_, subclasscheck_hook_yes env k s G G hT hch hstale hn hhkc, ?_, ?_⟩
          · rw [addCache_registry]
          · rw [addCache_counter]
        · exact absurd hhkc hhk
        · refine ⟨_, subclasscheck_mro_true env k s G G hT hch hstale hn hhkc hmro,
            ?_, ?_⟩
          · rw [addCache_registry]
          · rw [addCache_counter]
  have hiss : issubclass env (k + 1) s G G = (.ok true, sx) := by
    rw [issubclass_abc env (k + 1) s G G hABC]
    exact hx
  rw [register_noop env (k + 1) s sx G G hT hiss]
  exact ⟨rfl, hrx, hcx⟩

/-! ### Concrete instances: counterexamples and witnesses -/

/-- Handles 0 and 1 are fresh ABCs, every other handle a fresh plain
class; every hook is undecided. -/
def envU : Env where
  isType := fun _ => true
  isABC := fun n => n == 0 || n == 1
  mro := fun n => [n]
  subclasses := fun _ => []
  hook := fun _ _ => .undecided

/-- Handle 0 is an ABC whose hook denies handle 1; everything else is a
plain class and every other hook is undecided. -/
def envHookNo : Env where
  isType := fun _ => true
  isABC := fun n => n == 0
  mro := fun n => [n]
  subclasses := fun _ => []
  hook := fun a b => if a == 0 && b == 1 then .no else .undecided

/-- Handle 0 is an ABC whose hook denies handle 0 itself. -/
def envSelfNo : Env where
  isType := fun _ => true
  isABC := fun n => n == 0
  mro := fun n => [n]
  subclasses := fun _ => []
  hook := fun a b => if a == 0 && b == 0 then .no else .undecided

/-- The all-empty initial state at counter 0. -/
def st0 : ABCState where
  registry := fun _ => []
  cache := fun _ => []
  negCache := fun _ => []
  negVersion := fun _ => 0
  counter := 0

/-- As `st0`, but with handle 5 already in the positive cache of
group 0. -/
def stP : ABCState where
  registry := fun _ => []
  cache := fun n => if n == 0 then [5] else []
  negCache := fun _ => []
  negVersion := fun _ => 0
  counter := 0

/-- C1 counterexample: with a subclass hook that returns a definite
`False` for `T` (group 0 denying class 1), `satisfiesType(G, T)` is
false, `declare(G, T)` succeeds and commits, yet the subsequent
`satisfiesType(G, T)` is still false — the hook short-circuits before
the registry is consulted, so the claim fails as universally stated. -/
theorem C1_counterexample :
    (subclasscheck envHookNo 3 st0 0 1).1 = .ok false ∧
    (register envHookNo 3 st0 0 1).1 = .ok 1 ∧
    (subclasscheck envHookNo 3 (register envHookNo 3 st0 0 1).2 0 1).1 = .ok false :=
  ⟨rfl, rfl, rfl⟩

/-- C1 witness for the amended theorem: group 0 and plain class 5 under
undecided hooks. -/
theorem C1_witness :
    (subclasscheck envU (0 + 2) (register envU 1 st0 0 5).2 0 5).1 = .ok true :=
  C1_theorem envU 1 st0 (subclasscheck envU 1 st0 0 5).2 (register envU 1 st0 0 5).2
    0 5 rfl rfl rfl rfl (by decide) (by decide) (by decide) (fun _ => Nat.le_refl 0) 0

/-- C2 counterexample: `declare(G, G)` on a fresh group succeeds (the
call returns `G` without raising) yet leaves the global counter
unchanged, refuting "globalEpoch afterwards equals its value before
plus N" for N = 1 successful call. -/
theorem C2_counterexample :
    (register envU 1 st0 0 0).1 = .ok 0 ∧
    ((register envU 1 st0 0 0).2).counter = st0.counter :=
  ⟨rfl, rfl⟩

/-- C2 witness: the characterization applied at a no-op success
(`declare(0, 0)`) and at a committing success (`declare(0, 5)`). -/
theorem C2_witness :
    ((((issubclass envU 1 st0 0 0).1 = .ok true ∧
        ((register envU 1 st0 0 0).2).counter = st0.counter) ∨
      ((issubclass envU 1 st0 0 0).1 = .ok false ∧
        ((register envU 1 st0 0 0).2).counter = st0.counter + 1))) ∧
    ((((issubclass envU 1 st0 5 0).1 = .ok true ∧
        ((register envU 1 st0 0 5).2).counter = st0.counter) ∨
      ((issubclass envU 1 st0 5 0).1 = .ok false ∧
        ((register envU 1 st0 0 5).2).counter = st0.counter + 1))) :=
  ⟨(C2_theorem envU 1 st0 0 0).1 0 (register envU 1 st0 0 0).2 rfl,
    (C2_theorem envU 1 st0 0 5).1 5 (register envU 1 st0 0 5).2 rfl⟩

/-- C3 counterexample: a `declare` that fails with `CycleRejected`
nevertheless changes the engine's state — the membership checks it ran
have populated group 0's positive cache — so "makes no change at all"
is false; only registry and counter are untouched. -/
theorem C3_counterexample :
    (register envU 2 (register envU 2 st0 0 1).2 1 0).1 = .error .cycleRejected ∧
    ((register envU 2 (register envU 2 st0 0 1).2 1 0).2).cache 0 = [1] ∧
    ((register envU 2 st0 0 1).2).cache 0 = [] :=
  ⟨rfl, rfl, rfl⟩

/-- C3 witness for the amended theorem: the failing declare leaves
group 0's registry and the counter unchanged. -/
theorem C3_witness :
    ((register envU 2 (register envU 2 st0 0 1).2 1 0).2).registry 0 =
      ((register envU 2 st0 0 1).2).registry 0 ∧
    ((register envU 2 (register envU 2 st0 0 1).2 1 0).2).counter =
      ((register envU 2 st0 0 1).2).counter := by
  have h := (C3_theorem envU 2 (register envU 2 st0 0 1).2 1 0).1 .cycleRejected
    (register envU 2 (register envU 2 st0 0 1).2 1 0).2 rfl
  exact ⟨h.1 0, h.2⟩

/-- C4 witness: fresh groups 0 and 1 in the initial state. -/
theorem C4_witness :
    (register envU 1 st0 0 1).1 = .ok 1 ∧
    (register envU 2 (register envU 1 st0 0 1).2 1 0).1 = .error .cycleRejected ∧
    ((register envU 2 (register envU 1 st0 0 1).2 1 0).2).registry 0 =
      ((register envU 1 st0 0 1).2).registry 0 ∧
    ((register envU 2 (register envU 1 st0 0 1).2 1 0).2).registry 1 =
      ((register envU 1 st0 0 1).2).registry 1 ∧
    (subclasscheck envU 1 (register envU 2 (register envU 1 st0 0 1).2 1 0).2 1 0).1 =
      .ok false :=
  C4_theorem envU st0 0 1 0 0 0 ⟨rfl, rfl, rfl, rfl, rfl, rfl, rfl, rfl⟩
    ⟨rfl, rfl, rfl, rfl, rfl, rfl, rfl, rfl⟩ (by decide) rfl rfl rfl

/-- C5 witness: handle 5 is already positively cached for group 0, so
registering it is a strict no-op. -/
theorem C5_witness :
    register envU 1 stP 0 5 = (.ok 5, stP) ∧
    stP.registry = stP.registry ∧ stP.counter = stP.counter ∧
    register envU (0 + 1) stP 0 5 = (.ok 5, stP) :=
  C5_theorem envU 1 0 stP stP 0 5 rfl rfl

/-- C6 witness: a cached positive answer for (group 0, class 5)
survives a later declare on another group. -/
theorem C6_witness :
    subclasscheck envU (1 + 1) (runOps envU 2 stP [Op.decl 1 5]) 0 5 =
      (.ok true, runOps envU 2 stP [Op.decl 1 5]) :=
  C6_theorem envU 1 2 1 stP stP 0 5 rfl [Op.decl 1 5]

/-- C7 witness: groups 0 and 1 and plain class 2 in the initial
state. -/
theorem C7_witness :
    (register envU 1 st0 0 1).1 = .ok 1 ∧
    (register envU 1 (register envU 1 st0 0 1).2 1 2).1 = .ok 2 ∧
    (subclasscheck envU 3
      (register envU 1 (register envU 1 st0 0 1).2 1 2).2 0 2).1 = .ok true :=
  C7_theorem envU st0 0 1 2 0 0 0 ⟨rfl, rfl, rfl, rfl, rfl, rfl, rfl, rfl⟩
    ⟨rfl, rfl, rfl, rfl, rfl, rfl, rfl, rfl⟩ rfl rfl rfl (by decide) (by decide)
    (by decide) rfl rfl rfl rfl

/-- C9 counterexample: when the group's own hook denies the group
itself, `declare(G, G)` still succeeds and returns `G` without
`CycleRejected` — but it is not a no-op: `G` enters its own registry
and the counter rises, refuting the claim as stated. -/
theorem C9_counterexample :
    (register envSelfNo 2 st0 0 0).1 = .ok 0 ∧
    0 ∈ ((register envSelfNo 2 st0 0 0).2).registry 0 ∧
    ((register envSelfNo 2 st0 0 0).2).counter = st0.counter + 1 :=
  ⟨rfl, by decide, rfl⟩

/-- C9 witness for the amended theorem: self-registration of group 0
under an undecided hook is a no-op. -/
theorem C9_witness :
    (register envU 1 st0 0 0).1 = .ok 0 ∧
    ((register envU 1 st0 0 0).2).registry 0 = st0.registry 0 ∧
    ((register envU 1 st0 0 0).2).counter = st0.counter :=
  C9_theorem envU st0 0 0 rfl rfl (by decide) (by decide) (Nat.le_refl 0)
    (fun _ => List.not_mem_nil 0)
